import Mathlib

/-
  Verification development for the mircrew-smart-indexer repository.

  The Python sources are embedded shallowly:
  * `src/indexer/parsing.py` (EpisodeParser.extract_episode_info,
    EpisodeParser.contains_season) is embedded through a small backtracking
    regular-expression engine covering exactly the constructs used by those
    patterns (case-insensitive literals, character classes, greedy and lazy
    counted repetition, optional groups, word boundaries, digit-run captures),
    with Python re.search semantics: leftmost starting position first, and at a
    given position the backtracking preference order of the pattern.
  * `src/indexer/auth.py` (AuthManager.login, AuthManager.is_already_logged_in)
    is embedded as explicit state machines over abstract probe pages and
    per-attempt outcomes.
  * `src/indexer/sonarr.py` (SonarrClient.get_missing_episodes,
    SonarrClient._matches_series) and `src/indexer/core.py`
    (MIRCrewSmartIndexer._find_series_threads,
    MIRCrewSmartIndexer.search_mircrew_smart_tv) are embedded over explicit
    environments describing the outcomes of the HTTP requests they issue.
-/

namespace MIRCrew

/-! ### Character classes (Python `re` semantics, ASCII fragment) -/

/-- Python regex whitespace class matched by a space, tab, newline,
carriage return, vertical tab or form feed. -/
def isWs (c : Char) : Bool :=
  c = ' ' || c = '\t' || c = '\n' || c = '\r' || c = '\x0b' || c = '\x0c'

/-- Python regex word character (ASCII fragment of the default unicode class):
letters, digits and underscore. -/
def isWordChar (c : Char) : Bool :=
  c.isAlphanum || c = '_'

/-- The character classes occurring in the patterns of `parsing.py`. -/
inductive CClass where
  | digit
  | ws
  | anyNoNl
  | oneOf (cs : List Char)
  | wsOr (cs : List Char)
deriving DecidableEq

/-- Membership of a character in a class. -/
def CClass.memb : CClass → Char → Bool
  | .digit, c => c.isDigit
  | .ws, c => isWs c
  | .anyNoNl, c => c ≠ '\n'
  | .oneOf cs, c => cs.contains c
  | .wsOr cs, c => isWs c || cs.contains c

/-! ### Pattern syntax -/

/-- Non-capturing pattern pieces (enough for the optional groups used). -/
inductive Atom where
  | lit (s : String)
  | rep (cl : CClass) (lo : Nat) (hi : Option Nat) (lazyq : Bool)
deriving DecidableEq

/-- A pattern element.  Captures in the embedded patterns are always digit
runs (converted with `int` by the Python code), so `cap` captures the run as a
`Nat`.  Patterns are matched against lowercased input, which for the ASCII
patterns at hand is equivalent to `re.IGNORECASE`. -/
inductive RE where
  | atom (a : Atom)
  | cap (cl : CClass) (lo : Nat) (hi : Option Nat)
  | opt (atoms : List Atom)
  | wb
deriving DecidableEq

/-! ### The matching engine -/

/-- Length of the maximal run of class characters at the head of the input. -/
def runLen (cl : CClass) : List Char → Nat
  | [] => 0
  | c :: cs => if cl.memb c then runLen cl cs + 1 else 0

/-- Candidate consumption lengths for a counted repetition, in Python
backtracking preference order: greedy repetitions try the longest run first,
lazy ones the shortest. -/
def repCands (cl : CClass) (lo : Nat) (hi : Option Nat) (lazyq : Bool)
    (input : List Char) : List Nat :=
  let r := runLen cl input
  let top := match hi with
    | none => r
    | some h => min r h
  if lo > top then []
  else
    let asc := (List.range (top + 1 - lo)).map (fun i => lo + i)
    if lazyq then asc else asc.reverse

/-- The previous character after consuming `consumed` (used for `\b`). -/
def newPrev (prev : Option Char) (consumed : List Char) : Option Char :=
  match consumed.getLast? with
  | some c => some c
  | none => prev

/-- Consume a literal, or fail. -/
def dropLit : List Char → List Char → Option (List Char)
  | [], input => some input
  | _ :: _, [] => none
  | c :: cs, d :: ds => if c = d then dropLit cs ds else none

/-- All ways a list of atoms can match a prefix of the input, as
(previous character, remaining input) pairs, in backtracking preference
order. -/
def atomOutcomes : List Atom → Option Char → List Char →
    List (Option Char × List Char)
  | [], prev, input => [(prev, input)]
  | .lit s :: rest, prev, input =>
    match dropLit s.data input with
    | none => []
    | some remaining => atomOutcomes rest (newPrev prev s.data) remaining
  | .rep cl lo hi lz :: rest, prev, input =>
    (repCands cl lo hi lz input).flatMap (fun n =>
      atomOutcomes rest (newPrev prev (input.take n)) (input.drop n))

/-- Is a word boundary present between the previous character and the head of
the remaining input? -/
def isWordOpt : Option Char → Bool
  | none => false
  | some c => isWordChar c

/-- Word boundary test. -/
def atWordBoundary (prev : Option Char) (input : List Char) : Bool :=
  isWordOpt prev != isWordOpt input.head?

/-- Numeric value of a digit run (Python `int` on the captured group). -/
def digitsToNat (cs : List Char) : Nat :=
  cs.foldl (fun a c => a * 10 + (c.toNat - 48)) 0

/-- Match a pattern at the current position; returns the captured digit runs
(in group order) of the first match in backtracking preference order. -/
def matchSeq : List RE → Option Char → List Char → Option (List Nat)
  | [], _, _ => some []
  | .atom (.lit s) :: rest, prev, input =>
    match dropLit s.data input with
    | none => none
    | some remaining => matchSeq rest (newPrev prev s.data) remaining
  | .atom (.rep cl lo hi lz) :: rest, prev, input =>
    (repCands cl lo hi lz input).findSome? (fun n =>
      matchSeq rest (newPrev prev (input.take n)) (input.drop n))
  | .cap cl lo hi :: rest, prev, input =>
    (repCands cl lo hi false input).findSome? (fun n =>
      match matchSeq rest (newPrev prev (input.take n)) (input.drop n) with
      | some caps => some (digitsToNat (input.take n) :: caps)
      | none => none)
  | .opt atoms :: rest, prev, input =>
    (atomOutcomes atoms prev input ++ [(prev, input)]).findSome? (fun pi =>
      matchSeq rest pi.1 pi.2)
  | .wb :: rest, prev, input =>
    if atWordBoundary prev input then matchSeq rest prev input else none

/-- `re.search`: try every starting position from the left. -/
def searchFrom (rs : List RE) : Option Char → List Char → Option (List Nat)
  | prev, [] => matchSeq rs prev []
  | prev, c :: cs =>
    match matchSeq rs prev (c :: cs) with
    | some caps => some caps
    | none => searchFrom rs (some c) cs

/-- Lowercased character data of a string (`re.IGNORECASE` for the ASCII
patterns used, and `title.lower()` in `contains_season`). -/
def lowerData (s : String) : List Char := s.data.map Char.toLower

/-- Search a pattern in an input (already lowercased). -/
def reSearch (rs : List RE) (input : List Char) : Option (List Nat) :=
  searchFrom rs none input

/-! ### The patterns of `EpisodeParser.extract_episode_info`
(`src/indexer/parsing.py`, lines 22-60), written in lowercase because the
input is lowercased in place of `re.IGNORECASE`. -/

/-- Shorthand for a literal. -/
def lit (s : String) : RE := .atom (.lit s)

/-- Shorthand for `\s*`. -/
def wsStar : RE := .atom (.rep .ws 0 none false)

/-- Shorthand for `0*`. -/
def zeroStar : RE := .atom (.rep (.oneOf ['0']) 0 none false)

/-- Shorthand for `(\d+)`. -/
def digPlusCap : RE := .cap .digit 1 none

/-- Shorthand for a bounded digit capture such as `(\d{1,2})`. -/
def digCap (hi : Nat) : RE := .cap .digit 1 (some hi)

/-- Shorthand for a bounded uncaptured digit run such as `\d{1,2}`. -/
def digRep (lo hi : Nat) : RE := .atom (.rep .digit lo (some hi) false)

/-- Shorthand for a single-character class. -/
def oneCl (cs : List Char) : RE := .atom (.rep (.oneOf cs) 1 (some 1) false)

/-- `season_pack_patterns` of `extract_episode_info`. -/
def seasonPackPatterns : List (List RE) :=
  [ [lit "complete", wsStar, lit "season", wsStar, digPlusCap],
    [lit "full", wsStar, lit "season", wsStar, digPlusCap],
    [lit "season", wsStar, digPlusCap, wsStar, lit "pack"],
    [lit "s", digCap 2, wsStar, lit "complete"],
    [lit "s", digCap 2, wsStar, lit "full"],
    [lit "s", digCap 2, wsStar, lit "complete", wsStar, lit "pack"] ]

/-- `range_patterns` of `extract_episode_info`.  The third pattern
`episodes?\s*(\d+)[\s\-to]+(\d+)` has only two capture groups. -/
def rangePatterns : List (List RE) :=
  [ [lit "s", digCap 2, lit "e", digCap 3, wsStar, lit "-", wsStar,
     lit "e", digCap 3],
    [lit "s", digCap 2, lit "e", digCap 3, wsStar, lit "-", wsStar,
     lit "s", digRep 1 2, lit "e", digCap 3],
    [lit "episode", .atom (.rep (.oneOf ['s']) 0 (some 1) false), wsStar,
     digPlusCap, .atom (.rep (.wsOr ['-', 't', 'o']) 1 none false),
     digPlusCap] ]

/-- `single_patterns` of `extract_episode_info`. -/
def singlePatterns : List (List RE) :=
  [ [lit "s", digCap 2, lit "e", digCap 3],
    [digCap 2, lit "x", digCap 3],
    [lit "stagion", oneCl ['e', 'i'], wsStar, digPlusCap,
     .atom (.rep .anyNoNl 0 none true), lit "episodio", wsStar, digPlusCap] ]

/-- The per-tier loop: `re.search` each pattern in order, first match wins. -/
def searchFirst (pats : List (List RE)) (input : List Char) : Option (List Nat) :=
  pats.findSome? (fun p => reSearch p input)

/-- `match.group(i)`: Python raises `IndexError: no such group` when the
pattern has fewer groups than `i`. -/
def pyGroup (caps : List Nat) (i : Nat) : Except String Nat :=
  match caps.get? (i - 1) with
  | some v => .ok v
  | none => .error "no such group"

/-- Python `list(range(a, b))` on non-negative bounds. -/
def pyRange (a b : Nat) : List Nat := List.range' a (b - a)

/-- Python `str.isspace`: non-empty and all whitespace. -/
def pyIsSpace (s : String) : Bool := !s.data.isEmpty && s.data.all isWs

/-- The extraction result dictionary: the season-pack branch sets no
`episode` or `episode_range` key, the range branch sets no `episode` key, the
single branch sets no `episode_range` key (absent keys are `none`). -/
structure EpisodeInfo where
  season : Nat
  episode : Option Nat
  full_season_pack : Bool
  episode_range : Option (List Nat)
deriving DecidableEq

/-- `EpisodeParser.extract_episode_info` (`src/indexer/parsing.py`, lines
15-69).  The result is `Except` because Python can raise: the third range
pattern has two groups while the code reads `match.group(3)`. -/
def extract_episode_info (text : String) : Except String (Option EpisodeInfo) :=
  if text.data.isEmpty || pyIsSpace text then .ok none
  else
    match searchFirst seasonPackPatterns (lowerData text) with
    | some caps =>
      match pyGroup caps 1 with
      | .ok season => .ok (some ⟨season, none, true, none⟩)
      | .error e => .error e
    | none =>
      match searchFirst rangePatterns (lowerData text) with
      | some caps =>
        match pyGroup caps 1, pyGroup caps 2, pyGroup caps 3 with
        | .ok s, .ok a, .ok b =>
          .ok (some ⟨s, none, false, some (pyRange a (b + 1))⟩)
        | .error e, _, _ => .error e
        | .ok _, .error e, _ => .error e
        | .ok _, .ok _, .error e => .error e
      | none =>
        match searchFirst singlePatterns (lowerData text) with
        | some caps =>
          match pyGroup caps 1, pyGroup caps 2 with
          | .ok s, .ok e2 => .ok (some ⟨s, some e2, false, none⟩)
          | .error e, _ => .error e
          | .ok _, .error e => .error e
        | none => .ok none

/-! ### The patterns of `EpisodeParser.contains_season`
(`src/indexer/parsing.py`, lines 99-118).  The season number is interpolated
with an f-string; in the last two patterns the braces of `\d{1,2}` are
themselves interpolated by the f-string, turning the intended bound into the
literal regex text `(1, 2)` (a group matching the three characters
`1, 2`). -/

/-- `Season\s*0*N`. -/
def csPat1 (n : Nat) : List RE := [lit "season", wsStar, zeroStar, lit (toString n)]

/-- `Stagion[ei]\s*0*N(\s*-\s*0*\d+)?`. -/
def csPat2 (n : Nat) : List RE :=
  [lit "stagion", oneCl ['e', 'i'], wsStar, zeroStar, lit (toString n),
   .opt [.rep .ws 0 none false, .lit "-", .rep .ws 0 none false,
         .rep (.oneOf ['0']) 0 none false, .rep .digit 1 none false]]

/-- `S0*N(\s*-\s*S0*\d+)?`. -/
def csPat3 (n : Nat) : List RE :=
  [lit "s", zeroStar, lit (toString n),
   .opt [.rep .ws 0 none false, .lit "-", .rep .ws 0 none false, .lit "s",
         .rep (.oneOf ['0']) 0 none false, .rep .digit 1 none false]]

/-- `SN` (no leading zero). -/
def csPat4 (n : Nat) : List RE := [lit ("s" ++ toString n)]

/-- `\bN\b`. -/
def csPat5 (n : Nat) : List RE := [.wb, lit (toString n), .wb]

/-- `Stagion[ei]\s*complete`. -/
def csPat6 : List RE := [lit "stagion", oneCl ['e', 'i'], wsStar, lit "complete"]

/-- `\bcomplete\b`. -/
def csPat7 : List RE := [.wb, lit "complete", .wb]

/-- `\bcompleta\b`. -/
def csPat8 : List RE := [.wb, lit "completa", .wb]

/-- `S\d(1, 2)-S\d(1, 2)` (the f-string ate the repetition braces). -/
def csPat9 : List RE :=
  [lit "s", digRep 1 1, lit "1, 2-s", digRep 1 1, lit "1, 2"]

/-- `Stagion[ei]\s*\d(1, 2)-\d(1, 2)` (same f-string damage). -/
def csPat10 : List RE :=
  [lit "stagion", oneCl ['e', 'i'], wsStar, digRep 1 1, lit "1, 2-",
   digRep 1 1, lit "1, 2"]

/-- The pattern list of `contains_season`, in source order. -/
def containsSeasonPatterns (n : Nat) : List (List RE) :=
  [csPat1 n, csPat2 n, csPat3 n, csPat4 n, csPat5 n,
   csPat6, csPat7, csPat8, csPat9, csPat10]

/-- `EpisodeParser.contains_season`: true when any pattern matches the
lowercased title. -/
def contains_season (title : String) (n : Nat) : Bool :=
  (containsSeasonPatterns n).any (fun p => (reSearch p (lowerData title)).isSome)

/-! Named per-pattern tests of `contains_season`, for stating which of the
ten disjuncts fires. -/

/-- Matches `Season\s*0*N`. -/
def hitSeasonNum (title : String) (n : Nat) : Bool :=
  (reSearch (csPat1 n) (lowerData title)).isSome

/-- Matches `Stagion[ei]\s*0*N(\s*-\s*0*\d+)?`. -/
def hitStagioneNum (title : String) (n : Nat) : Bool :=
  (reSearch (csPat2 n) (lowerData title)).isSome

/-- Matches `S0*N(\s*-\s*S0*\d+)?`. -/
def hitSZeros (title : String) (n : Nat) : Bool :=
  (reSearch (csPat3 n) (lowerData title)).isSome

/-- Matches the plain substring `SN`. -/
def hitSPlain (title : String) (n : Nat) : Bool :=
  (reSearch (csPat4 n) (lowerData title)).isSome

/-- Matches the isolated bare number `\bN\b`. -/
def hitBareNum (title : String) (n : Nat) : Bool :=
  (reSearch (csPat5 n) (lowerData title)).isSome

/-- Matches `Stagion[ei]\s*complete`. -/
def hitStagioneComplete (title : String) : Bool :=
  (reSearch csPat6 (lowerData title)).isSome

/-- Matches `\bcomplete\b` anywhere. -/
def hitComplete (title : String) : Bool :=
  (reSearch csPat7 (lowerData title)).isSome

/-- Matches `\bcompleta\b` anywhere. -/
def hitCompleta (title : String) : Bool :=
  (reSearch csPat8 (lowerData title)).isSome

/-- Matches the f-string-damaged pattern `S\d(1, 2)-S\d(1, 2)`. -/
def hitBrokenS (title : String) : Bool :=
  (reSearch csPat9 (lowerData title)).isSome

/-- Matches the f-string-damaged pattern `Stagion[ei]\s*\d(1, 2)-\d(1, 2)`. -/
def hitBrokenStagione (title : String) : Bool :=
  (reSearch csPat10 (lowerData title)).isSome

/-! The season-matching heuristic as the spec DESCRIBES it, for comparison
with `contains_season` as the source defines it.  The description differs
from the source on one point: it allows the generic completeness markers
only when no explicit season token is found in the title. -/

/-- A literal "Season N"/"Stagione N" token for the requested season,
following the words of the spec. -/
def specSeasonWordTok (title : String) (n : Nat) : Bool :=
  (reSearch [lit "season", wsStar, zeroStar, lit (toString n)]
    (lowerData title)).isSome ||
  (reSearch [lit "stagion", oneCl ['e', 'i'], wsStar, zeroStar,
    lit (toString n)] (lowerData title)).isSome

/-- "SNN" notation for the requested season, with or without a leading zero,
following the words of the spec. -/
def specSNTok (title : String) (n : Nat) : Bool :=
  (reSearch [lit "s", zeroStar, lit (toString n)] (lowerData title)).isSome

/-- An isolated bare number equal to the requested season, following the
words of the spec. -/
def specBareTok (title : String) (n : Nat) : Bool :=
  (reSearch [.wb, lit (toString n), .wb] (lowerData title)).isSome

/-- An explicit season token for any season: "Season"/"Stagione" followed by
a number, or "S" directly followed by a digit. -/
def specAnySeasonTok (title : String) : Bool :=
  (reSearch [lit "season", wsStar, digRep 1 1] (lowerData title)).isSome ||
  (reSearch [lit "stagion", oneCl ['e', 'i'], wsStar, digRep 1 1]
    (lowerData title)).isSome ||
  (reSearch [lit "s", digRep 1 1] (lowerData title)).isSome

/-- A generic completeness marker ("complete"/"completa"). -/
def specCompletenessTok (title : String) : Bool :=
  (reSearch [.wb, lit "complete", .wb] (lowerData title)).isSome ||
  (reSearch [.wb, lit "completa", .wb] (lowerData title)).isSome

/-- The heuristic following the words of the spec (claim C8): a literal
"Season N" or localized equivalent, "SNN" notation with or without a leading
zero, an isolated bare number equal to N, or — only when no explicit season
token is found in the title — a generic completeness marker. -/
def specSeasonHeuristic (title : String) (n : Nat) : Bool :=
  specSeasonWordTok title n || specSNTok title n || specBareTok title n ||
  (!specAnySeasonTok title && specCompletenessTok title)

/-! ### `AuthManager.is_already_logged_in` (`src/indexer/auth.py`, lines
237-261).  The BeautifulSoup queries on the probed index page are abstracted
into three boolean observations of the page; a failing probe request (any
exception) is the `Except.error` case. -/

/-- The observations `is_already_logged_in` makes of the probed page:
whether `soup.find` locates a form with id `login`, whether `soup.find_all`
locates an anchor whose href matches `(mode=logout|logout)`, and whether it
locates a span/div/a tag whose string matches the configured username. -/
structure ProbePage where
  loginForm : Bool
  logoutLink : Bool
  usernameTag : Bool
deriving DecidableEq

/-- `AuthManager.is_already_logged_in`: request failure gives `False`; a
login form gives `False`; otherwise a logout link or a username tag gives
`True`, and an ambiguous page gives `False`. -/
def is_already_logged_in (probe : Except Unit ProbePage) : Bool :=
  match probe with
  | .error _ => false
  | .ok page =>
    if page.loginForm then false
    else page.logoutLink || page.usernameTag

/-! ### `AuthManager.login` (`src/indexer/auth.py`, lines 89-235).  Each loop
iteration is driven by the outcome of that attempt's HTTP exchanges. -/

/-- Outcome of one login attempt, in the order the loop body can fail:
network error fetching the form, form missing from the page, network error
posting credentials, a POST status outside (200, 302), a response page whose
indicators say the login did not take, or success. -/
inductive LoginStep where
  | formNetErr
  | formMissing
  | postNetErr
  | badStatus
  | pageNotLoggedIn
  | success
deriving DecidableEq

/-- Observable trace of a `login` call: the returned success flag, the number
of attempts performed, the backoff waits the code computes (`actual_wait`,
line 141 of auth.py), the sleeps it actually performs, and how many times it
persisted cookies. -/
structure LoginTrace where
  success : Bool
  attempts : Nat
  computedWaits : List ℚ
  sleeps : List ℚ
  cookieSaves : Nat
deriving DecidableEq

/-- `min(initial_wait * (2 ** (attempt - 1)), 300)` (auth.py line 139). -/
def backoffWait (initialWait attempt : Nat) : Nat :=
  min (initialWait * 2 ^ (attempt - 1)) 300

/-- The `for attempt in range(retries)` loop of `login`.  `rem` counts the
iterations left; the current attempt index is `total - rem`.  For attempts
after the first the code computes `actual_wait = wait_time * jitter`
(auth.py lines 139-141) but performs no `time.sleep` — the statement was
mangled into `logger.info(".1f")` (line 142); the monolithic original,
`src/mircrew_smart_indexer.py` line 111, sleeps `actual_wait` at this point.
Hence the `sleeps` field of the trace is always empty. -/
def loginGo (initialWait total : Nat) (steps : Nat → LoginStep)
    (jitters : Nat → ℚ) : Nat → List ℚ → LoginTrace
  | 0, waits => ⟨false, total, waits.reverse, [], 0⟩
  | rem + 1, waits =>
    let attempt := total - (rem + 1)
    let waits2 :=
      if attempt == 0 then waits
      else ((backoffWait initialWait attempt : ℚ) * jitters attempt) :: waits
    match steps attempt with
    | .success => ⟨true, attempt + 1, waits2.reverse, [], 1⟩
    | _ => loginGo initialWait total steps jitters rem waits2

/-- `AuthManager.login`: unconfigured credentials fail immediately; an
already-authenticated session returns immediately; otherwise the retry loop
runs for at most `retries` attempts. -/
def login (credsOk already : Bool) (retries initialWait : Nat)
    (steps : Nat → LoginStep) (jitters : Nat → ℚ) : LoginTrace :=
  if !credsOk then ⟨false, 0, [], [], 0⟩
  else if already then ⟨true, 0, [], [], 0⟩
  else loginGo initialWait retries steps jitters retries []

/-! ### `MIRCrewSmartIndexer._find_series_threads` (`src/indexer/core.py`,
lines 86-155).  The search-results page is abstracted to the list of
`a.topictitle` entries, each carrying its normalized title and the thread id
its href yields under `re.search(r"t=(\d+)(?:&|$)", ...)` (`none` when that
pattern finds nothing).  A request or parse exception anywhere in the `try`
block is the `Except.error` case. -/

/-- One parsed entry of the results listing. -/
structure RawEntry where
  threadId : Option Nat
  title : String
deriving DecidableEq

/-- A retained thread candidate. -/
structure Candidate where
  threadId : Nat
  title : String
deriving DecidableEq

/-- Environment of one `_find_series_threads` call: whether `auth.login()`
returns a truthy value, and the outcome of the search request. -/
structure SearchEnv where
  loginOk : Bool
  searchPage : Except Unit (List RawEntry)

/-- The per-entry test at core.py line 145:
`season is None or self.parser.contains_season(thread_title, season)`. -/
def keepsEntry (season : Option Nat) (title : String) : Bool :=
  match season with
  | none => true
  | some n => contains_season title n

/-- What one listing entry contributes to `found_threads`. -/
def entryToCandidate (season : Option Nat) (e : RawEntry) : Option Candidate :=
  match e.threadId with
  | none => none
  | some tid =>
    if keepsEntry season e.title then some ⟨tid, e.title⟩ else none

/-- `MIRCrewSmartIndexer._find_series_threads`: login failure returns `[]`;
any exception in the search/parse block is caught and returns `[]`; the
function is total (never raises to its caller). -/
def find_series_threads (env : SearchEnv) (season : Option Nat) :
    List Candidate :=
  if !env.loginOk then []
  else
    match env.searchPage with
    | .error _ => []
    | .ok entries => entries.filterMap (entryToCandidate season)

/-! ### `SonarrClient` (`src/indexer/sonarr.py`). -/

/-- One episode object returned by the Sonarr episodes endpoint. -/
structure SonarrEp where
  seasonNumber : Nat
  episodeNumber : Nat
  monitored : Bool
  hasFile : Bool
deriving DecidableEq

/-- One series object returned by the Sonarr series endpoint. -/
structure SonarrSeries where
  sid : Nat
  title : String
deriving DecidableEq

/-- Environment of a `get_missing_episodes` call: whether the API key is
configured, and the outcomes of the two requests.  `Except.error` covers a
raised `requests` exception; a non-200 status, which the code also turns
into `[]`, can equally be modelled by it. -/
structure SonarrEnv where
  apiKeySet : Bool
  seriesResp : Except Unit (List SonarrSeries)
  episodesResp : Nat → Except Unit (List SonarrEp)

/-- `re.sub(r"[^\w\s]", "", s.lower())`. -/
def pyNormalize (s : String) : String :=
  String.mk ((s.data.map Char.toLower).filter (fun c => isWordChar c || isWs c))

/-- The stop-word set of `_matches_series`. -/
def stopWords : List String :=
  ["the", "a", "an", "and", "or", "but", "in", "on", "at", "to", "for", "of",
   "with", "by", "da", "di", "il", "la", "le", "lo", "gli", "una", "un",
   "serie", "season", "stagione", "complete", "completa"]

/-- `set(norm.split()) - stop_words`: the distinct non-stop-words of a
normalized title. -/
def titleWordSet (s : String) : List String :=
  ((((pyNormalize s).split isWs).filter (fun w => w ≠ "")).dedup).filter
    (fun w => !stopWords.contains w)

/-- `SonarrClient._matches_series` (`src/indexer/sonarr.py`, lines 76-87).
The final float comparison `len(common) / max(...) >= 0.3` is expressed as
the exact rational comparison `10 * len(common) >= 3 * max(...)`, which
agrees with the Python float comparison at all word-set sizes that arise. -/
def matches_series (t1 t2 : String) : Bool :=
  let w1 := titleWordSet t1
  let w2 := titleWordSet t2
  let common := (w1.filter (fun w => w2.contains w)).dedup
  decide (1 ≤ common.length) && decide (3 * max w1.length w2.length ≤ 10 * common.length)

/-- `SonarrClient.get_missing_episodes` (`src/indexer/sonarr.py`, lines
27-74).  Every failure path — missing API key, failed or non-200 series
request, no matching series, falsy series id, failed or non-200 episodes
request, and any raised exception (caught by the enclosing
`except Exception`) — returns `[]`.  In particular the function never
raises, so the `requests.exceptions.RequestException` retry loop of its
caller (`core.py` lines 192-202) and the unfiltered-results fallback of the
enclosing `except` (`core.py` lines 231-236) can never trigger. -/
def get_missing_episodes (env : SonarrEnv) (seriesTitle : String)
    (season : Nat) : List (Nat × Nat) :=
  if !env.apiKeySet then []
  else
    match env.seriesResp with
    | .error _ => []
    | .ok seriesList =>
      match seriesList.find? (fun s => matches_series s.title seriesTitle) with
      | none => []
      | some s =>
        if s.sid == 0 then []
        else
          match env.episodesResp s.sid with
          | .error _ => []
          | .ok eps =>
            (eps.filter (fun e =>
              e.seasonNumber == season && e.monitored && !e.hasFile)).map
              (fun e => (e.seasonNumber, e.episodeNumber))

/-! ### The reconciliation filter and the top-level TV search
(`src/indexer/core.py`, lines 157-238). -/

/-- An episode record, restricted to the two fields the reconciliation
filter reads (`ep.get("season")`, `ep.get("episode")`). -/
structure Episode where
  season : Option Nat
  episode : Option Nat
deriving DecidableEq

/-- The per-record test of core.py lines 216-224: a record with a season but
no episode (season pack) matches when some missing pair has its season (the
`e is not None` conjunct of line 219 always holds, the missing set being
built from integer `episodeNumber` fields); a record with both matches when
its pair is in the missing set; a record without a season never matches. -/
def epMatchesMissing (missing : List (Nat × Nat)) (ep : Episode) : Bool :=
  match ep.episode, ep.season with
  | none, some s => missing.any (fun p => p.1 == s)
  | some e, some s => decide ((s, e) ∈ missing)
  | _, _ => false

/-- The Sonarr filtering step of core.py lines 204-230: an empty missing
list is authoritative (`return []`), a non-empty one filters the records. -/
def sonarrFilterStep (missing : List (Nat × Nat)) (records : List Episode) :
    List Episode :=
  if missing.isEmpty then []
  else records.filter (epMatchesMissing missing)

/-- The `season` argument as the HTTP layer hands it over: absent, an
integer, or a value of some non-integer type. -/
inductive PySeason where
  | pnone
  | pint (n : Int)
  | pother
deriving DecidableEq

/-- The validation test of core.py lines 160-162:
`not isinstance(season, int) or season <= 0` under `season is not None`. -/
def seasonInvalid : PySeason → Bool
  | .pnone => false
  | .pint n => decide (n ≤ 0)
  | .pother => true

/-- Environment of a `search_mircrew_smart_tv` call: the discovery
environment, the episodes each thread id expands to (the combined result of
`_get_thread_data` and `_expand_thread_episodes`, whose failures yield `[]`
via their own handlers), and the Sonarr environment. -/
structure TvEnv where
  search : SearchEnv
  expandThread : Nat → List Episode
  sonarr : SonarrEnv

/-- `MIRCrewSmartIndexer.search_mircrew_smart_tv` (`src/indexer/core.py`,
lines 157-238).  The second component counts the forum search requests
issued (one per `_find_series_threads` call).  The Sonarr retry loop and
the unfiltered fallback of lines 192-236 are dead code — see
`get_missing_episodes` — so reconciliation reduces to `sonarrFilterStep`. -/
def search_mircrew_smart_tv (env : TvEnv) (query : String)
    (season : PySeason) : Except String (List Episode) × Nat :=
  if seasonInvalid season then (.error "Season must be a positive integer", 0)
  else
    let seasonN : Option Nat :=
      match season with
      | .pint n => some n.toNat
      | _ => none
    let threads := find_series_threads env.search seasonN
    if threads.isEmpty then (.ok [], 1)
    else
      let allEpisodes :=
        (threads.take 5).flatMap (fun t => env.expandThread t.threadId)
      match seasonN with
      | some n =>
        if env.sonarr.apiKeySet then
          (.ok (sonarrFilterStep (get_missing_episodes env.sonarr query n)
            allEpisodes), 1)
        else (.ok allEpisodes, 1)
      | none => (.ok allEpisodes, 1)

/-! ## Theorems about the embedded program -/

/-- Any `range'` with step 1 is strictly increasing; helper for the
episode-range invariant. -/
theorem pyRange_pairwise_lt (a b : Nat) : (pyRange a b).Pairwise (· < ·) := by
  unfold pyRange
  exact List.pairwise_lt_range' a (b - a)

/-- C9: for every input in which no pattern of any of the three tiers
matches, `extract_episode_info` returns `Unparsable` (`none`) without
raising: the `.ok none` outcome.  (Totality of the embedded function over
all strings is the shallow form of the never-raises guarantee for this
quantification; inputs matched by a tier are outside this claim.) -/
theorem c9_unparsable_returns_none (text : String)
    (hp : searchFirst seasonPackPatterns (lowerData text) = none)
    (hr : searchFirst rangePatterns (lowerData text) = none)
    (hs : searchFirst singlePatterns (lowerData text) = none) :
    extract_episode_info text = .ok none := by
  unfold extract_episode_info
  split
  · rfl
  · rw [hp, hr, hs]

/-- C9 witness: the empty string and unrelated prose match no tier and
extract to `Unparsable`. -/
theorem c9_unparsable_returns_none_witness :
    extract_episode_info "hello world" = .ok none ∧
    extract_episode_info "" = .ok none :=
  ⟨c9_unparsable_returns_none "hello world" rfl rfl rfl,
   c9_unparsable_returns_none "" rfl rfl rfl⟩

/-- C1: the two example extractions of the claim hold, but the universal
part fails: on "episodes 1-3" the first matching tier is the range tier
(third pattern), and instead of returning its result the code raises
`IndexError: no such group`, because that pattern has two capture groups
while the code reads `match.group(3)` (parsing.py lines 42 and 49). -/
theorem c1_extract_tier_evaluations :
    extract_episode_info "S01E01" = .ok (some ⟨1, some 1, false, none⟩) ∧
    extract_episode_info "1x02" = .ok (some ⟨1, some 2, false, none⟩) ∧
    extract_episode_info "episodes 1-3" = .error "no such group" :=
  ⟨rfl, rfl, rfl⟩

/-- C4 counterexample: on "S01E05-E02" the range tier matches with start 5
and end 2, `list(range(5, 3))` is empty, and the extraction result has
`episode_range = some []`, refuting the non-emptiness half of the claimed
invariant. -/
theorem c4_range_invariant_counterexample :
    extract_episode_info "S01E05-E02" = .ok (some ⟨1, none, false, some []⟩) ∧
    ¬ (∀ info : EpisodeInfo,
        extract_episode_info "S01E05-E02" = .ok (some info) →
        ∀ r, info.episode_range = some r → r ≠ []) := by
  refine ⟨rfl, fun h => ?_⟩
  exact h ⟨1, none, false, some []⟩ rfl [] rfl rfl

/-- C4 (amended): every extraction result with `full_season_pack = true` has
`episode = none`, and every result with `episode_range` set has
`episode = none` and a strictly increasing range (the range may be empty when
the text names a reversed span); "S01E02-E05" extracts to season 1 with
range [2, 3, 4, 5]. -/
theorem c4_extraction_invariant_amended :
    (∀ (text : String) (info : EpisodeInfo),
        extract_episode_info text = .ok (some info) →
        (info.full_season_pack = true → info.episode = none) ∧
        (∀ r, info.episode_range = some r →
          info.episode = none ∧ r.Pairwise (· < ·))) ∧
    extract_episode_info "S01E02-E05" =
      .ok (some ⟨1, none, false, some [2, 3, 4, 5]⟩) := by
  constructor
  · intro text info h
    unfold extract_episode_info at h
    split at h
    · simp at h
    · split at h
      · split at h
        · simp only [Except.ok.injEq, Option.some.injEq] at h
          subst h
          exact ⟨fun _ => rfl, fun r hr => by simp at hr⟩
        · exact absurd h (by simp)
      · split at h
        · split at h
          · simp only [Except.ok.injEq, Option.some.injEq] at h
            subst h
            refine ⟨fun hfs => by simp at hfs, fun r hr => ?_⟩
            simp only [Option.some.injEq] at hr
            subst hr
            exact ⟨rfl, pyRange_pairwise_lt _ _⟩
          · exact absurd h (by simp)
          · exact absurd h (by simp)
          · exact absurd h (by simp)
        · split at h
          · split at h
            · simp only [Except.ok.injEq, Option.some.injEq] at h
              subst h
              exact ⟨fun hfs => by simp at hfs, fun r hr => by simp at hr⟩
            · exact absurd h (by simp)
            · exact absurd h (by simp)
          · simp at h
  · rfl

/-- C4 witness: the amended invariant applied to the concrete extraction of
"S01E02-E05". -/
theorem c4_extraction_invariant_amended_witness :
    extract_episode_info "S01E02-E05" =
      .ok (some ⟨1, none, false, some [2, 3, 4, 5]⟩) ∧
    (∀ r, (⟨1, none, false, some [2, 3, 4, 5]⟩ : EpisodeInfo).episode_range =
        some r →
      (⟨1, none, false, some [2, 3, 4, 5]⟩ : EpisodeInfo).episode = none ∧
      r.Pairwise (· < ·)) :=
  ⟨rfl,
   (c4_extraction_invariant_amended.1 "S01E02-E05"
     ⟨1, none, false, some [2, 3, 4, 5]⟩ rfl).2⟩

/-- C5: `is_already_logged_in` returns false whenever the login-form marker
is present, regardless of the other markers; with no login form it returns
true exactly when a logout link or the username appears; an ambiguous page
(no markers at all) gives false. -/
theorem c5_login_state_heuristic :
    ∀ (lo un : Bool),
      is_already_logged_in (.ok ⟨true, lo, un⟩) = false ∧
      is_already_logged_in (.ok ⟨false, lo, un⟩) = (lo || un) ∧
      is_already_logged_in (.ok ⟨false, false, false⟩) = false := by
  decide

/-- C6: with 3 attempts all failing on a network error and unit jitter,
`login` performs exactly 3 attempts, gives up with a permanent failure, and
computes the exponential backoff waits 5 and 10 — but the sleeps list is
empty: auth.py computes `actual_wait` and then never calls `time.sleep`
(the statement was mangled into `logger.info(".1f")`, line 142, while the
monolithic original sleeps at this point). -/
theorem c6_login_computes_backoff_but_never_sleeps :
    login true false 3 5 (fun _ => .formNetErr) (fun _ => 1) =
      ⟨false, 3, [5, 10], [], 0⟩ := by
  norm_num [login, loginGo, backoffWait]

/-- C7: `_find_series_threads` returns the empty list when login fails and
when the search request or result parsing fails; being a total function into
`List Candidate`, the embedding never raises to its caller. -/
theorem c7_discovery_failures_yield_empty :
    ∀ (season : Option Nat) (entries : List RawEntry),
      find_series_threads ⟨false, .ok entries⟩ season = [] ∧
      find_series_threads ⟨false, .error ()⟩ season = [] ∧
      find_series_threads ⟨true, .error ()⟩ season = [] := by
  intro season entries
  exact ⟨rfl, rfl, rfl⟩

/-- C3: with the tracker unreachable (both Sonarr requests failing) and one
discovered episode, the pipeline returns the empty list — identical to the
authoritative no-missing-episodes outcome, not the claimed unfiltered
fallback: `get_missing_episodes` swallows every exception and returns `[]`,
so the retry loop and the fallback of core.py lines 192-236 never run. -/
theorem c3_unreachable_tracker_yields_empty_not_fallback :
    search_mircrew_smart_tv
      ⟨⟨true, .ok [⟨some 7, "Test s01"⟩]⟩, fun _ => [⟨some 1, some 2⟩],
       ⟨true, .error (), fun _ => .error ()⟩⟩ "Test" (.pint 1) =
      (.ok [], 1) ∧
    get_missing_episodes ⟨true, .error (), fun _ => .error ()⟩ "Test" 1 = [] ∧
    ([] : List Episode) ≠ [⟨some 1, some 2⟩] := by
  refine ⟨rfl, rfl, by simp⟩

/-- The per-record matching test, unfolded to the logical form used by
claim C2. -/
theorem epMatchesMissing_iff (missing : List (Nat × Nat)) (ep : Episode) :
    epMatchesMissing missing ep = true ↔
      ((∃ s e, ep.season = some s ∧ ep.episode = some e ∧ (s, e) ∈ missing) ∨
       (ep.episode = none ∧ ∃ s e, ep.season = some s ∧ (s, e) ∈ missing)) := by
  obtain ⟨eps, epe⟩ := ep
  cases eps with
  | none =>
    cases epe <;> simp [epMatchesMissing]
  | some s =>
    cases epe with
    | none =>
      show missing.any (fun p => p.1 == s) = true ↔ _
      rw [List.any_eq_true]
      constructor
      · rintro ⟨⟨ps, pe⟩, hp, hps⟩
        have hps2 : ps = s := by simpa using hps
        exact Or.inr ⟨rfl, s, pe, rfl, hps2 ▸ hp⟩
      · rintro (⟨s1, e1, hs1, he1, hin⟩ | ⟨heq, s1, e1, hs1, hin⟩)
        · exact absurd he1 (by simp)
        · have h1 : s = s1 := by simpa using hs1
          subst h1
          exact ⟨(s, e1), hin, by simp⟩
    | some e =>
      show decide ((s, e) ∈ missing) = true ↔ _
      rw [decide_eq_true_eq]
      constructor
      · intro hin
        exact Or.inl ⟨s, e, rfl, rfl, hin⟩
      · rintro (⟨s1, e1, hs1, he1, hin⟩ | ⟨hne, _⟩)
        · have h1 : s = s1 := by simpa using hs1
          have h2 : e = e1 := by simpa using he1
          subst h1
          subst h2
          exact hin
        · exact absurd hne (by simp)

/-- C2: a record passes the reconciliation filter exactly when its episode
is set and its (season, episode) pair is missing, or it has no specific
episode (season pack) and some missing pair carries its season; an empty
missing set yields the empty list. -/
theorem c2_reconciliation_filter (missing : List (Nat × Nat))
    (records : List Episode) :
    (∀ ep : Episode,
      ep ∈ sonarrFilterStep missing records ↔
        ep ∈ records ∧
          ((∃ s e, ep.season = some s ∧ ep.episode = some e ∧
              (s, e) ∈ missing) ∨
           (ep.episode = none ∧ ∃ s e, ep.season = some s ∧
              (s, e) ∈ missing))) ∧
    (missing = [] → sonarrFilterStep missing records = []) := by
  constructor
  · intro ep
    unfold sonarrFilterStep
    by_cases hm : missing = []
    · subst hm
      simp
    · rw [if_neg (by simpa [List.isEmpty_iff] using hm)]
      rw [List.mem_filter, epMatchesMissing_iff]
  · intro hm
    subst hm
    rfl

/-- C2 witness: with missing set [(1, 1)], both the S01E01 record and the
episode-less season-1 pack record are retained, and the empty missing set
filters everything out. -/
theorem c2_reconciliation_filter_witness :
    (⟨some 1, some 1⟩ : Episode) ∈
      sonarrFilterStep [(1, 1)] [⟨some 1, some 1⟩, ⟨some 1, none⟩] ∧
    (⟨some 1, none⟩ : Episode) ∈
      sonarrFilterStep [(1, 1)] [⟨some 1, some 1⟩, ⟨some 1, none⟩] ∧
    sonarrFilterStep [] [⟨some 1, some 1⟩, ⟨some 1, none⟩] = [] :=
  ⟨((c2_reconciliation_filter [(1, 1)] _).1 _).mpr
      ⟨by simp, Or.inl ⟨1, 1, rfl, rfl, by simp⟩⟩,
   ((c2_reconciliation_filter [(1, 1)] _).1 _).mpr
      ⟨by simp, Or.inr ⟨rfl, 1, 1, rfl, by simp⟩⟩,
   (c2_reconciliation_filter [] _).2 rfl⟩

/-- What one listing entry contributes, characterized. -/
theorem entryToCandidate_eq_some (n : Nat) (e : RawEntry) (c : Candidate) :
    entryToCandidate (some n) e = some c ↔
      e.threadId = some c.threadId ∧ e.title = c.title ∧
        contains_season c.title n = true := by
  obtain ⟨tid?, title⟩ := e
  obtain ⟨cid, ctitle⟩ := c
  cases tid? with
  | none => simp [entryToCandidate]
  | some tid =>
    simp only [entryToCandidate, keepsEntry]
    split
    · next hk =>
      simp only [Option.some.injEq, Candidate.mk.injEq]
      constructor
      · rintro ⟨rfl, rfl⟩
        exact ⟨rfl, rfl, hk⟩
      · rintro ⟨hid, rfl, _⟩
        exact ⟨by simpa using hid, rfl⟩
    · next hk =>
      constructor
      · rintro ⟨⟩
      · rintro ⟨hid, htitle, hcs⟩
        subst htitle
        exact absurd hcs (by simpa using hk)

/-- C8 counterexample: with season 1 requested, the entry titled
"Breaking Bad S05 Complete" is kept by the discovery filter (the generic
`\bcomplete\b` pattern matches any season), although the title carries the
explicit season token S05 and fails the heuristic as the spec describes it
(completeness markers only when no explicit season token is present). -/
theorem c8_season_filter_counterexample :
    contains_season "Breaking Bad S05 Complete" 1 = true ∧
    find_series_threads
        ⟨true, .ok [⟨some 42, "Breaking Bad S05 Complete"⟩]⟩ (some 1) =
      [⟨42, "Breaking Bad S05 Complete"⟩] ∧
    specSeasonHeuristic "Breaking Bad S05 Complete" 1 = false :=
  ⟨rfl, rfl, rfl⟩

/-- C8 (amended): with a season given, a discovered entry is kept exactly
when its title passes `contains_season`, and `contains_season` holds exactly
when one of its ten patterns matches: literal "Season N"/"Stagione N" forms,
"S" plus optional zeros plus N, the plain substring "SN", an isolated bare
N, "Stagione complete", or — unconditionally, regardless of any explicit
season token — a generic completeness marker ("complete"/"completa"), plus
two f-string-damaged range patterns that only match degenerate titles. -/
theorem c8_season_filter_amended :
    ∀ (n : Nat) (title : String) (entries : List RawEntry) (c : Candidate),
      (c ∈ find_series_threads ⟨true, .ok entries⟩ (some n) ↔
        ∃ e ∈ entries, e.threadId = some c.threadId ∧ e.title = c.title ∧
          contains_season c.title n = true) ∧
      (contains_season title n = true ↔
        (hitSeasonNum title n = true ∨ hitStagioneNum title n = true ∨
         hitSZeros title n = true ∨ hitSPlain title n = true ∨
         hitBareNum title n = true ∨ hitStagioneComplete title = true ∨
         hitComplete title = true ∨ hitCompleta title = true ∨
         hitBrokenS title = true ∨ hitBrokenStagione title = true)) := by
  intro n title entries c
  constructor
  · rw [show find_series_threads ⟨true, .ok entries⟩ (some n) =
        entries.filterMap (entryToCandidate (some n)) from rfl]
    rw [List.mem_filterMap]
    constructor
    · rintro ⟨e, he, hec⟩
      exact ⟨e, he, (entryToCandidate_eq_some n e c).mp hec⟩
    · rintro ⟨e, he, hprops⟩
      exact ⟨e, he, (entryToCandidate_eq_some n e c).mpr hprops⟩
  · simp only [contains_season, containsSeasonPatterns, List.any_cons,
      List.any_nil, Bool.or_eq_true, Bool.false_eq_true, or_false,
      hitSeasonNum, hitStagioneNum, hitSZeros, hitSPlain, hitBareNum,
      hitStagioneComplete, hitComplete, hitCompleta, hitBrokenS,
      hitBrokenStagione]

/-- C8 witness: the amended keep rule applied to a concrete listing. -/
theorem c8_season_filter_amended_witness :
    (⟨5, "Show Season 1"⟩ : Candidate) ∈
      find_series_threads ⟨true, .ok [⟨some 5, "Show Season 1"⟩]⟩ (some 1) ∧
    contains_season "Show Season 1" 1 = true :=
  ⟨(c8_season_filter_amended 1 "Show Season 1" [⟨some 5, "Show Season 1"⟩]
      ⟨5, "Show Season 1"⟩).1.mpr
      ⟨⟨some 5, "Show Season 1"⟩, by simp, rfl, rfl, rfl⟩,
   (c8_season_filter_amended 1 "Show Season 1" [] ⟨5, "Show Season 1"⟩).2.mpr
      (Or.inl rfl)⟩

/-- With a valid season argument the search reaches the pipeline: it issues
its one forum search request and returns an `ok` result. -/
theorem searchSmartTv_ok_of_valid (env : TvEnv) (query : String)
    (season : PySeason) (h : seasonInvalid season = false) :
    ∃ eps, search_mircrew_smart_tv env query season = (.ok eps, 1) := by
  unfold search_mircrew_smart_tv
  rw [h]
  simp only [Bool.false_eq_true, if_false]
  split
  · exact ⟨[], rfl⟩
  · split
    · split
      · exact ⟨_, rfl⟩
      · exact ⟨_, rfl⟩
    · exact ⟨_, rfl⟩

/-- C10: `search_mircrew_smart_tv` returns the ValueError outcome exactly
when the season argument is present and not a positive integer, and in that
case no forum search request has been issued; a `None` season skips the
validation and proceeds. -/
theorem c10_season_validation (env : TvEnv) (query : String)
    (season : PySeason) :
    ((search_mircrew_smart_tv env query season).1 =
        .error "Season must be a positive integer" ↔
      (season ≠ .pnone ∧ ∀ n : Int, season = .pint n → n ≤ 0)) ∧
    ((search_mircrew_smart_tv env query season).1 =
        .error "Season must be a positive integer" →
      (search_mircrew_smart_tv env query season).2 = 0) := by
  by_cases hv : seasonInvalid season = true
  · have hres : search_mircrew_smart_tv env query season =
        (.error "Season must be a positive integer", 0) := by
      unfold search_mircrew_smart_tv
      rw [hv]
      simp
    rw [hres]
    refine ⟨⟨fun _ => ?_, fun _ => rfl⟩, fun _ => rfl⟩
    cases season with
    | pnone => simp [seasonInvalid] at hv
    | pint n =>
      refine ⟨by simp, fun m hm => ?_⟩
      simp only [PySeason.pint.injEq] at hm
      subst hm
      simpa [seasonInvalid] using hv
    | pother =>
      exact ⟨by simp, fun m hm => by cases hm⟩
  · have hv2 : seasonInvalid season = false := by
      cases hb : seasonInvalid season
      · rfl
      · exact absurd hb hv
    obtain ⟨eps, hres⟩ := searchSmartTv_ok_of_valid env query season hv2
    rw [hres]
    refine ⟨⟨fun h => absurd h (by simp), fun hcond => ?_⟩, fun h => absurd h (by simp)⟩
    exfalso
    cases season with
    | pnone => exact hcond.1 rfl
    | pint n =>
      have hn := hcond.2 n rfl
      simp [seasonInvalid] at hv2
      omega
    | pother => simp [seasonInvalid] at hv2

/-- C10 witness: season 0 is rejected before any search request, with the
request counter at zero. -/
theorem c10_season_validation_witness :
    (search_mircrew_smart_tv
        ⟨⟨false, .ok []⟩, fun _ => [], ⟨false, .ok [], fun _ => .ok []⟩⟩
        "q" (.pint 0)).1 = .error "Season must be a positive integer" ∧
    (search_mircrew_smart_tv
        ⟨⟨false, .ok []⟩, fun _ => [], ⟨false, .ok [], fun _ => .ok []⟩⟩
        "q" (.pint 0)).2 = 0 := by
  have h := c10_season_validation
    ⟨⟨false, .ok []⟩, fun _ => [], ⟨false, .ok [], fun _ => .ok []⟩⟩ "q" (.pint 0)
  have herr := h.1.mpr ⟨by simp, fun m hm => by cases hm; exact le_refl 0⟩
  exact ⟨herr, h.2 herr⟩

end MIRCrew
